import Mathlib

/-!
# debthin worker — verification of the request-resolution core

Shallow embedding of `src/worker/index.js` (the Cloudflare worker of the
debthin package-index mirror).  Pure string manipulation is modelled by
structurally recursive functions over `List Char` (JS `split("/")`,
`startsWith`, `trimEnd`, …), storage by a function from keys to optional
objects, and the platform primitives `DecompressionStream` and `JSON.parse`
are injected as explicit functional parameters.  The `fetch` entry point is
instrumented to also return the ordered list of storage keys it fetched.
-/

namespace Debthin

/-- JS `s.split(sep)` for a one-character separator — splits at every
occurrence, keeping empty segments; the empty string yields `[""]`. -/
def splitCharAux (sep : Char) : List Char → List Char → List String
  | [], acc => [String.mk acc.reverse]
  | c :: cs, acc =>
    if c = sep then String.mk acc.reverse :: splitCharAux sep cs []
    else splitCharAux sep cs (c :: acc)

/-- JS `s.split("/")`. -/
def splitSegs (s : String) : List String :=
  splitCharAux '/' s.data []

/-- JS `s.split("\n")`. -/
def splitSegsNl (s : String) : List String :=
  splitCharAux '\n' s.data []

/-- JS `parts.join(sep)`. -/
def joinWith (sep : String) : List String → String
  | [] => ""
  | [x] => x
  | x :: xs => x ++ sep ++ joinWith sep xs

/-- JS `parts.join("/")`. -/
def joinSegs : List String → String := joinWith "/"

/-- JS `lines.join("\n")`. -/
def joinNl : List String → String := joinWith "\n"

/-- JS `s.startsWith(pre)`. -/
def strStartsWith (s pre : String) : Bool :=
  pre.data.isPrefixOf s.data

/-- JS `s.endsWith(suf)`. -/
def strEndsWith (s suf : String) : Bool :=
  suf.data.reverse.isPrefixOf s.data.reverse

/-- Drop the last `n` characters (used to model the anchored regex
replacement `r2Key.replace(/\/Release$/, "/InRelease")`). -/
def strDropRight (s : String) (n : Nat) : String :=
  String.mk (s.data.take (s.data.length - n))

/-- JS `s.trimEnd()` — strip trailing whitespace. -/
def trimTrailing (s : String) : String :=
  String.mk (s.data.reverse.dropWhile Char.isWhitespace).reverse

/-- Scan for the first occurrence of `pat`, replace it by `repl`; the fuel
argument (instantiated with the string length) only makes the recursion
structural. -/
def replaceFirstAux (pat repl : List Char) : Nat → List Char → List Char
  | _, [] => []
  | 0, s => s
  | fuel + 1, c :: cs =>
    if pat.isPrefixOf (c :: cs) then repl ++ (c :: cs).drop pat.length
    else c :: replaceFirstAux pat repl fuel cs

/-- JS `s.replace(pat, repl)` with a plain-string pattern: replaces the
first occurrence only (the empty pattern matches at position 0). -/
def replaceFirst (s pat repl : String) : String :=
  if pat = "" then repl ++ s
  else String.mk (replaceFirstAux pat.data repl.data s.data.length s.data)

/-! ## Configuration tables (src/worker/index.js lines 18–61) -/

def UPSTREAMS (distro : String) : String :=
  if distro = "ubuntu" then "archive.ubuntu.com/ubuntu" else "deb.debian.org/debian"

def DEBIAN_COMPONENTS : List String :=
  ["main", "contrib", "non-free", "non-free-firmware"]

def UBUNTU_COMPONENTS : List String :=
  ["main", "restricted", "universe", "multiverse"]

def DEBIAN_SUITE_ALIASES : List (String × String) :=
  [("stable", "trixie"),
   ("oldstable", "bookworm"),
   ("oldoldstable", "bullseye"),
   ("testing", "forky"),
   ("stable-updates", "trixie-updates"),
   ("oldstable-updates", "bookworm-updates"),
   ("oldoldstable-updates", "bullseye-updates")]

def UBUNTU_SUITE_ALIASES : List (String × String) :=
  [("22.04", "jammy"),
   ("22.04-updates", "jammy-updates"),
   ("22.04-backports", "jammy-backports"),
   ("24.04", "noble"),
   ("24.04-updates", "noble-updates"),
   ("24.04-backports", "noble-backports"),
   ("25.04", "plucky"),
   ("25.04-updates", "plucky-updates"),
   ("25.04-backports", "plucky-backports"),
   ("25.10", "questing"),
   ("25.10-updates", "questing-updates"),
   ("25.10-backports", "questing-backports"),
   ("lts", "noble"),
   ("lts-updates", "noble-updates"),
   ("lts-backports", "noble-backports"),
   ("previous-lts", "jammy"),
   ("previous-lts-updates", "jammy-updates"),
   ("previous-lts-backports", "jammy-backports"),
   ("current", "plucky"),
   ("current-updates", "plucky-updates"),
   ("current-backports", "plucky-backports"),
   ("testing", "questing"),
   ("testing-updates", "questing-updates"),
   ("testing-backports", "questing-backports")]

def components (distro : String) : List String :=
  if distro = "ubuntu" then UBUNTU_COMPONENTS else DEBIAN_COMPONENTS

def suiteAliases (distro : String) : List (String × String) :=
  if distro = "ubuntu" then UBUNTU_SUITE_ALIASES else DEBIAN_SUITE_ALIASES

/-! ## Alias resolution (lines 71–78) -/

/-- Body of `resolveAliases` after the `split("/")`: rewrite segment 1 when
segment 0 is `"dists"`, segment 1 is truthy (non-empty) and is a key of the
alias table. -/
def resolveAliasesParts (aliases : List (String × String)) (parts : List String) :
    List String :=
  match parts with
  | p0 :: p1 :: rest =>
    if p0 = "dists" ∧ p1 ≠ "" then
      match aliases.lookup p1 with
      | some c => p0 :: c :: rest
      | none => parts
    else parts
  | _ => parts

def resolveAliases (distro : String) (suitePath : String) : String :=
  joinSegs (resolveAliasesParts (suiteAliases distro) (splitSegs suitePath))

/-! ## Content types (lines 80–87) -/

def contentType (path : String) : String :=
  if strEndsWith path ".gz" then "application/x-gzip"
  else if strEndsWith path ".lz4" then "application/x-lz4"
  else if strEndsWith path ".xz" then "application/x-xz"
  else if strEndsWith path ".gpg" then "application/pgp-keys"
  else if strEndsWith path ".html" then "text/html; charset=utf-8"
  else "text/plain; charset=utf-8"

/-! ## Data model -/

/-- An R2 object: body bytes (modelled as a string) plus the optional
declared content type from `httpMetadata`. -/
structure R2Obj where
  body : String
  declaredType : Option String
deriving DecidableEq

/-- The storage backend: `env.DEBTHIN_BUCKET.get` as a pure map from keys
to optional objects. -/
def Storage : Type := String → Option R2Obj

/-- The parts of the incoming `Request`/`URL` the worker reads:
`url.protocol` (`"http:"` or `"https:"`), `url.pathname`, and `url.search`
(either `""` or `"?..."`). -/
structure Request where
  scheme : String
  pathname : String
  search : String

/-- The responses the worker can produce.
`ok` is a 200 with body, `Content-Type`, and the optional `X-Debthin`
diagnostic tag; `notFound` is the 404 `"Not found"` response;
`redirect` is `Response.redirect(location, 301)`; `error` models an
uncaught exception escaping the handler (corrupt gzip stream in
`DecompressionStream`, or `JSON.parse` throwing). -/
inductive Response where
  | ok (body : String) (ct : String) (tag : Option String)
  | notFound
  | redirect (status : Nat) (location : String)
  | error
deriving DecidableEq

def isRedirect : Response → Bool
  | .redirect _ _ => true
  | _ => false

/-- Helper `serveR2` (lines 97–108): fetch a key, `null` on miss, else a 200 whose
content type is the object's declared type when truthy, else inferred from
the key. -/
def serveR2 (st : Storage) (key : String) : Option Response :=
  match st key with
  | none => none
  | some obj =>
    let ct := match obj.declaredType with
      | some c => if c = "" then contentType key else c
      | none => contentType key
    some (.ok obj.body ct (some "hit"))

/-- Helper `serveDecompressed` (lines 110–127): fetch a key, `null` on miss, else
gunzip the body via the injected `DecompressionStream` model; a corrupt
stream throws, modelled as `Response.error`. -/
def serveDecompressed (gunzip : String → Option String) (st : Storage)
    (key : String) : Option Response :=
  match st key with
  | none => none
  | some obj =>
    match gunzip obj.body with
    | none => some .error
    | some d => some (.ok d "text/plain; charset=utf-8" (some "hit-decomp"))

/-! ## Derivation helpers (lines 129–144) -/

/-- Transform `inReleaseToRelease` (lines 129–135): find the first line starting with
`Origin:` and the first starting with the PGP signature marker; if no
`Origin:` line, return the text unchanged; else slice `[start, end)`
(to the end when the marker is absent), join, trim trailing whitespace and
append one newline. -/
def inReleaseToRelease (text : String) : String :=
  let lines := splitSegsNl text
  let start := lines.findIdx? (fun l => strStartsWith l "Origin:")
  let stop := lines.findIdx? (fun l => strStartsWith l "-----BEGIN PGP SIGNATURE-----")
  match start with
  | none => text
  | some s =>
    let sliced := match stop with
      | none => lines.drop s
      | some e => (lines.drop s).take (e - s)
    trimTrailing (joinNl sliced) ++ "\n"

/-- Generator `archReleaseBody` (lines 137–144): synthesize the three-line per-arch
Release body from the path segments.  Only ever called on paths of the form
`dists/SUITE/COMPONENT/binary-ARCH/Release`, so the `getD` defaults never
fire. -/
def archReleaseBody (suitePath : String) : String :=
  let parts := splitSegs suitePath
  let suite := parts.getD 1 ""
  let component := parts.getD 2 ""
  let arch := replaceFirst (parts.getD 3 "") "binary-" ""
  "Archive: " ++ suite ++ "\nComponent: " ++ component ++ "\nArchitecture: " ++ arch ++ "\n"

/-! ## Route patterns (the regexes of lines 161, 186, 197, 205, 211, 228–232)

Each anchored regex over slash-separated paths is rendered as a predicate
on the `split("/")` segment list; `[^/]+` becomes a non-empty segment. -/

/-- The architecture alternation `(all|amd64|arm64|armhf|i386|riscv64)`. -/
def ARCHS : List String := ["all", "amd64", "arm64", "armhf", "i386", "riscv64"]

/-- A segment matching `binary-(all|amd64|arm64|armhf|i386|riscv64)`. -/
def isBinArch (seg : String) : Bool :=
  ARCHS.any (fun a => seg == "binary-" ++ a)

/-- Regex `^debthin-keyring(-binary)?\.gpg$` (line 161). -/
def isKeyringPath (raw : String) : Bool :=
  raw == "debthin-keyring.gpg" || raw == "debthin-keyring-binary.gpg"

/-- Regex `^dists/[^/]+/Release$` (line 186). -/
def isSuiteReleasePath (p : String) : Bool :=
  match splitSegs p with
  | [a, s, b] => a == "dists" && s != "" && b == "Release"
  | _ => false

/-- Regex `^dists/[^/]+/(<components>)/binary-(<archs>)/Release$` (line 197). -/
def isArchReleasePath (distro p : String) : Bool :=
  match splitSegs p with
  | [a, s, comp, barch, b] =>
    a == "dists" && b == "Release" && s != "" &&
      (components distro).contains comp && isBinArch barch
  | _ => false

/-- Regex `^dists/[^/]+/(<components>)/binary-(<archs>)/Packages$` (line 205). -/
def isPlainPackagesPath (distro p : String) : Bool :=
  match splitSegs p with
  | [a, s, comp, barch, b] =>
    a == "dists" && b == "Packages" && s != "" &&
      (components distro).contains comp && isBinArch barch
  | _ => false

def isHexLowerDigit (c : Char) : Bool :=
  ('0' ≤ c && c ≤ '9') || ('a' ≤ c && c ≤ 'f')

/-- Regex `[0-9a-f]{64}`. -/
def isSha256Hex (h : String) : Bool :=
  h.data.length == 64 && h.data.all isHexLowerDigit

/-- Model of
`suitePath.match(/^(dists\/[^\/]+)\/.+\/by-hash\/SHA256\/([0-9a-f]{64})$/)`
(line 211), returning the two capture groups.  A match demands last three
segments `by-hash/SHA256/<hex64>`, a non-empty no-slash suite segment, and a
non-empty middle (`.+`): at least one middle segment, not the single empty
one. -/
def byHashMatch (p : String) : Option (String × String) :=
  match splitSegs p with
  | d :: s :: rest =>
    if d == "dists" && s != "" then
      match rest.reverse with
      | h :: sha :: bh :: midrev =>
        if !midrev.isEmpty && midrev != [""] && sha == "SHA256" && bh == "by-hash" &&
            isSha256Hex h then
          some ("dists/" ++ s, h)
        else none
      | _ => none
    else none
  | _ => none

/-- Regex `^dists/[^/]+/InRelease$` (line 229). -/
def isInReleasePath (p : String) : Bool :=
  match splitSegs p with
  | [a, s, b] => a == "dists" && s != "" && b == "InRelease"
  | _ => false

/-- Regex `^dists/[^/]+/Release\.gpg$` (line 230). -/
def isReleaseGpgPath (p : String) : Bool :=
  match splitSegs p with
  | [a, s, b] => a == "dists" && s != "" && b == "Release.gpg"
  | _ => false

/-- Alternation `Packages(\.gz|\.lz4|\.xz)?` — the optional-suffix file name of the
pattern on line 231; note it also matches plain `Packages`. -/
def isPackagesFileName (f : String) : Bool :=
  f == "Packages" || f == "Packages.gz" || f == "Packages.lz4" || f == "Packages.xz"

/-- Regex `^dists/[^/]+/(<components>)/binary-(<archs>)/Packages(\.gz|\.lz4|\.xz)?$`
(line 231). -/
def isPackagesAnyPath (distro p : String) : Bool :=
  match splitSegs p with
  | [a, s, comp, barch, f] =>
    a == "dists" && s != "" && (components distro).contains comp && isBinArch barch &&
      isPackagesFileName f
  | _ => false

/-- Disjunction `distPatterns.some(p => p.test(suitePath))` (lines 228–233). -/
def matchesDistPattern (distro p : String) : Bool :=
  isInReleasePath p || isReleaseGpgPath p || isPackagesAnyPath distro p

/-- All the rules whose match is served from storage rather than
redirected: the union of the patterns on lines 186, 197, 205, 211 and
228–232. -/
def knownDistPath (distro p : String) : Bool :=
  isSuiteReleasePath p || isArchReleasePath distro p ||
  isPlainPackagesPath distro p || (byHashMatch p).isSome ||
  matchesDistPattern distro p

/-! ## The fetch entry point (lines 146–241) -/

/-- Normalization `url.pathname.replace(/^\//, "")` (line 149). -/
def stripLeadingSlash (p : String) : String :=
  if strStartsWith p "/" then String.mk (p.data.drop 1) else p

/-- Distro-prefix routing (lines 166–178): text before the first slash, if
`"debian"` or `"ubuntu"`, is consumed as the distro; otherwise the distro
defaults to `"debian"` and the whole path is the rest. -/
def splitDistro (raw : String) : String × String :=
  match splitSegs raw with
  | first :: restParts =>
    if first = "debian" || first = "ubuntu" then (first, joinSegs restParts)
    else ("debian", raw)
  | [] => ("debian", raw)

/-- Replacement `r2Key.replace(/\/Release$/, "/InRelease")` (line 187). -/
def replaceTrailingRelease (k : String) : String :=
  if strEndsWith k "/Release" then strDropRight k 8 ++ "/InRelease" else k

/-- The normalized path: `const raw = url.pathname.replace(/^\//, "")`
(line 149). -/
def reqRaw (req : Request) : String := stripLeadingSlash req.pathname

/-- The `distro` binding of lines 166–178. -/
def reqDistro (req : Request) : String := (splitDistro (reqRaw req)).1

/-- The `suitePath` binding of line 181: the distro-relative path with the
suite alias resolved. -/
def reqSuitePath (req : Request) : String :=
  resolveAliases (reqDistro req) (splitDistro (reqRaw req)).2

/-- The `r2Key` binding of line 182. -/
def reqR2Key (req : Request) : String :=
  reqDistro req ++ "/" ++ reqSuitePath req

/-- The worker's `fetch` (lines 146–241), instrumented to also return the
ordered list of keys passed to `r2Get`.  `gunzip` models
`DecompressionStream("gzip")` (`none` = corrupt stream, which throws);
`jsonParse` models `JSON.parse` of the by-hash index into the digest →
relative-path mapping (`none` = parse error, which throws); JS property
access on the parsed object is association-list lookup. -/
def handleFetch (st : Storage) (gunzip : String → Option String)
    (jsonParse : String → Option (List (String × String))) (req : Request) :
    Response × List String :=
  -- Root (lines 151–158): fixed key "index.html", no X-Debthin tag
  if reqRaw req = "" then
    match st "index.html" with
    | none => (.notFound, ["index.html"])
    | some obj => (.ok obj.body "text/html; charset=utf-8" none, ["index.html"])
  -- Keyring files (lines 160–163): key is the raw path itself
  else if isKeyringPath (reqRaw req) then
    match serveR2 st (reqRaw req) with
    | some r => (r, [reqRaw req])
    | none => (.notFound, [reqRaw req])
  -- Suite-level Release (lines 185–194)
  else if isSuiteReleasePath (reqSuitePath req) then
    match st (replaceTrailingRelease (reqR2Key req)) with
    | none => (.notFound, [replaceTrailingRelease (reqR2Key req)])
    | some obj =>
      (.ok (inReleaseToRelease obj.body) "text/plain; charset=utf-8"
        (some "hit-derived"), [replaceTrailingRelease (reqR2Key req)])
  -- Per-component per-arch Release (lines 196–202)
  else if isArchReleasePath (reqDistro req) (reqSuitePath req) then
    (.ok (archReleaseBody (reqSuitePath req)) "text/plain; charset=utf-8"
      (some "hit-generated"), [])
  -- Uncompressed Packages (lines 204–208)
  else if isPlainPackagesPath (reqDistro req) (reqSuitePath req) then
    match serveDecompressed gunzip st (reqR2Key req ++ ".gz") with
    | some r => (r, [reqR2Key req ++ ".gz"])
    | none => (.notFound, [reqR2Key req ++ ".gz"])
  else
    -- By-hash (lines 210–225)
    match byHashMatch (reqSuitePath req) with
    | some pr =>
      let indexKey := reqDistro req ++ "/" ++ pr.1 ++ "/by-hash-index"
      match st indexKey with
      | none => (.notFound, [indexKey])
      | some indexObj =>
        match jsonParse indexObj.body with
        | none => (.error, [indexKey])
        | some index =>
          match index.lookup pr.2 with
          | none => (.notFound, [indexKey])
          | some relPath =>
            -- `if (relPath)`: the empty string is falsy
            if relPath = "" then (.notFound, [indexKey])
            else
              let key := reqDistro req ++ "/" ++ pr.1 ++ "/" ++ relPath
              match serveR2 st key with
              | some r => (r, [indexKey, key])
              | none => (.notFound, [indexKey, key])
    | none =>
      -- Known dist paths, verbatim (lines 227–236)
      if matchesDistPattern (reqDistro req) (reqSuitePath req) then
        match serveR2 st (reqR2Key req) with
        | some r => (r, [reqR2Key req])
        | none => (.notFound, [reqR2Key req])
      -- Everything else: redirect upstream (lines 238–240)
      else
        (.redirect 301
          (req.scheme ++ "//" ++ UPSTREAMS (reqDistro req) ++ "/" ++
            reqSuitePath req ++ req.search), [])

/-- Spec-side formulation of the suite-level Release derivation, written to
the spec's words for the refinement claim: "the lines from the first
`Origin:` line (inclusive) to the first line beginning with
`-----BEGIN PGP SIGNATURE-----` (exclusive; to end-of-text if that marker is
absent), with trailing whitespace trimmed and exactly one trailing newline
appended".  Only meaningful when an `Origin:` line exists (the `getD 0` is
never exercised then). -/
def releaseBodySpec (text : String) : String :=
  let lines := splitSegsNl text
  let start := ((lines.findIdx? (fun l => strStartsWith l "Origin:")).getD 0)
  let stop :=
    ((lines.findIdx? (fun l => strStartsWith l "-----BEGIN PGP SIGNATURE-----")).getD
      lines.length)
  trimTrailing (joinNl ((lines.take stop).drop start)) ++ "\n"

/-! ## Auxiliary lemmas -/

theorem splitCharAux_ne_nil (sep : Char) (l acc : List Char) :
    splitCharAux sep l acc ≠ [] := by
  induction l generalizing acc with
  | nil => simp [splitCharAux]
  | cons c cs ih =>
    rw [splitCharAux]
    by_cases h : c = sep
    · simp [h]
    · simpa [h] using ih (c :: acc)

theorem joinWith_cons₂ (s x y : String) (ys : List String) :
    joinWith s (x :: y :: ys) = x ++ s ++ joinWith s (y :: ys) := rfl

theorem joinWith_splitCharAux (sep : Char) (l acc : List Char) :
    (joinWith (String.mk [sep]) (splitCharAux sep l acc)).data = acc.reverse ++ l := by
  induction l generalizing acc with
  | nil => simp [splitCharAux, joinWith]
  | cons c cs ih =>
    rw [splitCharAux]
    by_cases h : c = sep
    · rw [if_pos h]
      obtain ⟨y, ys, hys⟩ : ∃ y ys, splitCharAux sep cs [] = y :: ys := by
        rcases heq : splitCharAux sep cs [] with _ | ⟨y, ys⟩
        · exact absurd heq (splitCharAux_ne_nil sep cs [])
        · exact ⟨y, ys, rfl⟩
      rw [hys, joinWith_cons₂, ← hys]
      simp [String.data_append, ih, h]
    · rw [if_neg h, ih]
      simp

theorem joinSegs_splitSegs (p : String) : joinSegs (splitSegs p) = p := by
  apply String.ext
  have h : ("/" : String) = String.mk ['/'] := rfl
  simpa [joinSegs, splitSegs, h] using joinWith_splitCharAux '/' p.data []

theorem serveR2_not_redirect (st : Storage) (key : String) (r : Response)
    (h : serveR2 st key = some r) : isRedirect r = false := by
  unfold serveR2 at h
  cases hst : st key <;> rw [hst] at h
  · exact absurd h (by simp)
  · obtain rfl := Option.some.inj h
    rfl

theorem serveDecompressed_not_redirect (g : String → Option String) (st : Storage)
    (key : String) (r : Response) (h : serveDecompressed g st key = some r) :
    isRedirect r = false := by
  unfold serveDecompressed at h
  split at h
  · exact absurd h (by simp)
  · split at h <;> · obtain rfl := Option.some.inj h; rfl

theorem reqDistro_of_raw_empty (req : Request) (h : reqRaw req = "") :
    reqDistro req = "debian" := by
  unfold reqDistro
  rw [h]
  decide

theorem reqSuitePath_of_raw_empty (req : Request) (h : reqRaw req = "") :
    reqSuitePath req = "" := by
  unfold reqSuitePath reqDistro
  rw [h]
  decide

theorem reqSuitePath_of_keyring (req : Request) (h : isKeyringPath (reqRaw req) = true) :
    splitSegs (reqSuitePath req) = [reqRaw req] := by
  unfold isKeyringPath at h
  have h' : reqRaw req = "debthin-keyring.gpg" ∨ reqRaw req = "debthin-keyring-binary.gpg" := by
    simpa using h
  rcases h' with h' | h' <;> · unfold reqSuitePath reqDistro; rw [h']; decide

theorem knownDistPath_false_of_one_seg (d p x : String) (h : splitSegs p = [x]) :
    knownDistPath d p = false := by
  unfold knownDistPath isSuiteReleasePath isArchReleasePath isPlainPackagesPath
    byHashMatch matchesDistPattern isInReleasePath isReleaseGpgPath isPackagesAnyPath
  rw [h]
  rfl

theorem isSuiteReleasePath_false_of_len (p : String) (h : (splitSegs p).length ≠ 3) :
    isSuiteReleasePath p = false := by
  unfold isSuiteReleasePath
  split
  · next a s b heq => exact absurd (by rw [heq]; rfl) h
  · rfl

theorem isArchReleasePath_false_of_len (d p : String) (h : (splitSegs p).length ≠ 5) :
    isArchReleasePath d p = false := by
  unfold isArchReleasePath
  split
  · next a s c b f heq => exact absurd (by rw [heq]; rfl) h
  · rfl

theorem isPlainPackagesPath_false_of_len (d p : String) (h : (splitSegs p).length ≠ 5) :
    isPlainPackagesPath d p = false := by
  unfold isPlainPackagesPath
  split
  · next a s c b f heq => exact absurd (by rw [heq]; rfl) h
  · rfl

theorem raw_ne_empty_of_segs (req : Request) (l : List String)
    (hsegs : splitSegs (reqSuitePath req) = l) (hlen : l.length ≠ 1) :
    ¬ reqRaw req = "" := by
  intro h0
  rw [reqSuitePath_of_raw_empty req h0] at hsegs
  have l1 : (splitSegs "").length = 1 := rfl
  rw [hsegs] at l1
  exact hlen l1

theorem keyring_false_of_segs (req : Request) (l : List String)
    (hsegs : splitSegs (reqSuitePath req) = l) (hlen : l.length ≠ 1) :
    isKeyringPath (reqRaw req) = false := by
  by_cases h : isKeyringPath (reqRaw req) = true
  · have hk := reqSuitePath_of_keyring req h
    rw [hsegs] at hk
    exact absurd (by rw [hk]; rfl : l.length = 1) hlen
  · exact (Bool.not_eq_true _).mp h

theorem resolveAliasesParts_hit (al : List (String × String)) (a c : String)
    (rest : List String) (ha : a ≠ "") (hl : al.lookup a = some c) :
    resolveAliasesParts al ("dists" :: a :: rest) = "dists" :: c :: rest := by
  simp only [resolveAliasesParts, hl]
  simp [ha]

theorem resolveAliasesParts_miss (al : List (String × String)) (s : String)
    (rest : List String) (hl : al.lookup s = none) :
    resolveAliasesParts al ("dists" :: s :: rest) = "dists" :: s :: rest := by
  by_cases hs : s = ""
  · subst hs
    simp [resolveAliasesParts]
  · simp [resolveAliasesParts, hl, hs]

/-! ## Claim theorems -/

/-- C9: if the InRelease text contains no line beginning with `Origin:`, the
wrapper-strip function returns the entire text unchanged — no slicing, no
trimming, no appended newline — whether or not a PGP signature marker line
is present. -/
theorem inReleaseToRelease_no_origin (text : String)
    (h : ∀ l ∈ splitSegsNl text, strStartsWith l "Origin:" = false) :
    inReleaseToRelease text = text := by
  simp only [inReleaseToRelease, List.findIdx?_eq_none_iff.mpr h]

theorem inReleaseToRelease_no_origin_witness :
    inReleaseToRelease "Label: debthin\n-----BEGIN PGP SIGNATURE-----\nxyz\n" =
      "Label: debthin\n-----BEGIN PGP SIGNATURE-----\nxyz\n" :=
  inReleaseToRelease_no_origin _ (by decide)

/-- C6: alias resolution is a fixed point on canonical codenames and touches
only the second path segment, only below a leading `dists` segment: for
every configured alias `a ↦ c` in either table, resolving `a` yields `c`
and resolving `c` yields `c` (no canonical codename is an alias key), the
head segment and all segments from index 2 on pass through unchanged, and
paths not rooted at `dists` pass through whole. -/
theorem alias_resolution_correct :
    (∀ p ∈ DEBIAN_SUITE_ALIASES, ∀ rest : List String,
        resolveAliasesParts DEBIAN_SUITE_ALIASES ("dists" :: p.1 :: rest) =
          "dists" :: p.2 :: rest ∧
        resolveAliasesParts DEBIAN_SUITE_ALIASES ("dists" :: p.2 :: rest) =
          "dists" :: p.2 :: rest)
  ∧ (∀ p ∈ UBUNTU_SUITE_ALIASES, ∀ rest : List String,
        resolveAliasesParts UBUNTU_SUITE_ALIASES ("dists" :: p.1 :: rest) =
          "dists" :: p.2 :: rest ∧
        resolveAliasesParts UBUNTU_SUITE_ALIASES ("dists" :: p.2 :: rest) =
          "dists" :: p.2 :: rest)
  ∧ (∀ (al : List (String × String)) (parts : List String),
        (resolveAliasesParts al parts).headD "" = parts.headD "" ∧
        (resolveAliasesParts al parts).drop 2 = parts.drop 2 ∧
        (parts.headD "" ≠ "dists" → resolveAliasesParts al parts = parts)) := by
  have hdeb : ∀ p ∈ DEBIAN_SUITE_ALIASES, p.1 ≠ "" ∧
      DEBIAN_SUITE_ALIASES.lookup p.1 = some p.2 ∧
      DEBIAN_SUITE_ALIASES.lookup p.2 = none := by decide
  have hubu : ∀ p ∈ UBUNTU_SUITE_ALIASES, p.1 ≠ "" ∧
      UBUNTU_SUITE_ALIASES.lookup p.1 = some p.2 ∧
      UBUNTU_SUITE_ALIASES.lookup p.2 = none := by decide
  refine ⟨?_, ?_, ?_⟩
  · intro p hp rest
    exact ⟨resolveAliasesParts_hit _ _ _ _ (hdeb p hp).1 (hdeb p hp).2.1,
           resolveAliasesParts_miss _ _ _ (hdeb p hp).2.2⟩
  · intro p hp rest
    exact ⟨resolveAliasesParts_hit _ _ _ _ (hubu p hp).1 (hubu p hp).2.1,
           resolveAliasesParts_miss _ _ _ (hubu p hp).2.2⟩
  · intro al parts
    match parts with
    | [] => exact ⟨rfl, rfl, fun _ => rfl⟩
    | [x] => exact ⟨rfl, rfl, fun _ => rfl⟩
    | p0 :: p1 :: rest =>
      by_cases hc : p0 = "dists" ∧ p1 ≠ ""
      · cases hl : al.lookup p1 with
        | none => refine ⟨?_, ?_, fun _ => ?_⟩ <;> simp [resolveAliasesParts, hl]
        | some c =>
          refine ⟨?_, ?_, fun hne => absurd hc.1 (by simpa using hne)⟩ <;>
            simp [resolveAliasesParts, hc, hl]
      · refine ⟨?_, ?_, fun _ => ?_⟩ <;> simp [resolveAliasesParts, hc]

theorem alias_resolution_correct_witness :
    resolveAliasesParts DEBIAN_SUITE_ALIASES ["dists", "stable", "InRelease"] =
      ["dists", "trixie", "InRelease"] ∧
    resolveAliasesParts DEBIAN_SUITE_ALIASES ["dists", "trixie", "InRelease"] =
      ["dists", "trixie", "InRelease"] :=
  alias_resolution_correct.1 ("stable", "trixie") (by decide) ["InRelease"]

/-- C10: for exactly the two keyring paths `debthin-keyring.gpg` and
`debthin-keyring-binary.gpg`, the worker fetches the raw path itself as the
storage key — before distro-prefix detection and before alias resolution —
and a miss yields the 404, never a redirect. -/
theorem keyring_miss_notFound_unprefixed (st : Storage) (g : String → Option String)
    (j : String → Option (List (String × String))) (req : Request)
    (h : isKeyringPath (reqRaw req) = true) :
    (handleFetch st g j req).2 = [reqRaw req]
  ∧ (st (reqRaw req) = none → (handleFetch st g j req).1 = .notFound)
  ∧ isRedirect (handleFetch st g j req).1 = false := by
  have h0 : ¬ reqRaw req = "" := by
    intro h0; rw [h0] at h; exact absurd h (by decide)
  simp only [handleFetch]
  rw [if_neg h0, if_pos h]
  cases hs : serveR2 st (reqRaw req) with
  | none => exact ⟨rfl, fun _ => rfl, rfl⟩
  | some r =>
    refine ⟨rfl, fun hnone => ?_, serveR2_not_redirect st (reqRaw req) r hs⟩
    unfold serveR2 at hs
    rw [hnone] at hs
    exact absurd hs (by simp)

theorem keyring_miss_notFound_unprefixed_witness :
    ((handleFetch (fun _ => none) (fun _ => none) (fun _ => none)
        ⟨"https:", "/debthin-keyring.gpg", ""⟩).2 = ["debthin-keyring.gpg"])
  ∧ ((handleFetch (fun _ => none) (fun _ => none) (fun _ => none)
        ⟨"https:", "/debthin-keyring.gpg", ""⟩).1 = Response.notFound) := by
  have h := keyring_miss_notFound_unprefixed (fun _ => none) (fun _ => none) (fun _ => none)
    ⟨"https:", "/debthin-keyring.gpg", ""⟩ (by decide)
  exact ⟨h.1.trans (by decide), h.2.1 rfl⟩

/-- C8 (amended): for the empty request path the worker performs a single
storage fetch with the fixed unprefixed key `index.html` (not an
ecosystem-prefixed one), returning the object as HTML with not-found on
miss. -/
theorem rootIndex_fetches_unprefixed_key (st : Storage) (g : String → Option String)
    (j : String → Option (List (String × String))) (req : Request)
    (h : reqRaw req = "") :
    (handleFetch st g j req).2 = ["index.html"]
  ∧ (st "index.html" = none → (handleFetch st g j req).1 = .notFound)
  ∧ (∀ obj, st "index.html" = some obj →
       (handleFetch st g j req).1 = .ok obj.body "text/html; charset=utf-8" none) := by
  simp only [handleFetch]
  rw [if_pos h]
  cases hs : st "index.html" with
  | none =>
    refine ⟨rfl, fun _ => rfl, fun obj hobj => ?_⟩
    exact absurd hobj (by simp)
  | some obj =>
    refine ⟨rfl, fun hn => absurd hn (by simp), fun obj' hobj => ?_⟩
    obtain rfl := Option.some.inj hobj
    rfl

theorem rootIndex_fetches_unprefixed_key_witness :
    ((handleFetch (fun k => if k = "index.html" then some ⟨"<html>ok</html>", none⟩ else none)
        (fun _ => none) (fun _ => none) ⟨"https:", "/", ""⟩).2 = ["index.html"])
  ∧ ((handleFetch (fun k => if k = "index.html" then some ⟨"<html>ok</html>", none⟩ else none)
        (fun _ => none) (fun _ => none) ⟨"https:", "/", ""⟩).1 =
      Response.ok "<html>ok</html>" "text/html; charset=utf-8" none) := by
  have h := rootIndex_fetches_unprefixed_key
    (fun k => if k = "index.html" then some ⟨"<html>ok</html>", none⟩ else none)
    (fun _ => none) (fun _ => none) ⟨"https:", "/", ""⟩ (by decide)
  exact ⟨h.1, (h.2.2 ⟨"<html>ok</html>", none⟩ (by decide)).trans (by decide)⟩

/-- C8 (counterexample): with the object stored only under the
ecosystem-prefixed key `debian/index.html`, the root request still fetches
the unprefixed key `index.html` and responds not-found — refuting the
claim that the root fetch uses the ecosystem-prefixed fixed key. -/
theorem rootIndex_prefixed_key_refuted :
    ((handleFetch
        (fun k => if k = "debian/index.html" then some ⟨"<html>ok</html>", none⟩ else none)
        (fun _ => none) (fun _ => none) ⟨"https:", "/", ""⟩).2 ≠ ["debian/index.html"])
  ∧ ((handleFetch
        (fun k => if k = "debian/index.html" then some ⟨"<html>ok</html>", none⟩ else none)
        (fun _ => none) (fun _ => none) ⟨"https:", "/", ""⟩).1 = Response.notFound) := by
  decide

/-- C7: a non-empty, non-keyring path matching no known-dist rule produces
a 301 redirect to the distro's upstream base followed by the normalized
relative path, with the original query appended and the scheme copied from
the inbound request. -/
theorem unknown_path_redirects (st : Storage) (g : String → Option String)
    (j : String → Option (List (String × String))) (req : Request)
    (h0 : ¬ reqRaw req = "") (h1 : isKeyringPath (reqRaw req) = false)
    (h2 : knownDistPath (reqDistro req) (reqSuitePath req) = false) :
    handleFetch st g j req =
      (.redirect 301 (req.scheme ++ "//" ++ UPSTREAMS (reqDistro req) ++ "/" ++
        reqSuitePath req ++ req.search), []) := by
  unfold knownDistPath at h2
  simp only [Bool.or_eq_false_iff] at h2
  obtain ⟨⟨⟨⟨hsr, har⟩, hpp⟩, hbh⟩, hdp⟩ := h2
  have hbh' : byHashMatch (reqSuitePath req) = none := by
    cases hx : byHashMatch (reqSuitePath req) with
    | none => rfl
    | some pr => rw [hx] at hbh; cases hbh
  simp only [handleFetch]
  rw [if_neg h0, if_neg (by simp [h1]), if_neg (by simp [hsr]), if_neg (by simp [har]),
    if_neg (by simp [hpp]), hbh', if_neg (by simp [hdp])]

theorem unknown_path_redirects_witness :
    handleFetch (fun _ => none) (fun _ => none) (fun _ => none)
      ⟨"http:", "/pool/main/a/apt/apt_2.6.1_amd64.deb", "?q=1"⟩ =
      (.redirect 301 "http://deb.debian.org/debian/pool/main/a/apt/apt_2.6.1_amd64.deb?q=1",
       []) := by
  have h := unknown_path_redirects (fun _ => none) (fun _ => none) (fun _ => none)
    ⟨"http:", "/pool/main/a/apt/apt_2.6.1_amd64.deb", "?q=1"⟩
    (by decide) (by decide) (by decide)
  exact h.trans (by decide)

theorem isBinArch_of_mem (arch : String) (h : arch ∈ ARCHS) :
    isBinArch ("binary-" ++ arch) = true := by
  unfold isBinArch
  rw [List.any_eq_true]
  exact ⟨arch, h, by simp⟩

/-- C4: a request whose normalized path is
`dists/<suite>/<component>/binary-<arch>/Release` with the component in the
distro's configured component list and the arch in the recognized set is
answered with no storage fetch at all and the exact three-line synthesized
body `Archive: <suite>\nComponent: <component>\nArchitecture: <arch>\n`. -/
theorem archRelease_synthesized_no_fetch (st : Storage) (g : String → Option String)
    (j : String → Option (List (String × String))) (req : Request)
    (suite comp arch : String)
    (hsegs : splitSegs (reqSuitePath req) =
      ["dists", suite, comp, "binary-" ++ arch, "Release"])
    (hsuite : suite ≠ "")
    (hcomp : comp ∈ components (reqDistro req))
    (harch : arch ∈ ARCHS) :
    handleFetch st g j req =
      (.ok ("Archive: " ++ suite ++ "\nComponent: " ++ comp ++ "\nArchitecture: " ++
          arch ++ "\n")
        "text/plain; charset=utf-8" (some "hit-generated"), []) := by
  have h0 := raw_ne_empty_of_segs req _ hsegs (by simp)
  have h1 := keyring_false_of_segs req _ hsegs (by simp)
  have hsr : isSuiteReleasePath (reqSuitePath req) = false :=
    isSuiteReleasePath_false_of_len _ (by rw [hsegs]; simp)
  have hc2 : (components (reqDistro req)).contains comp = true :=
    List.elem_eq_true_of_mem hcomp
  have har : isArchReleasePath (reqDistro req) (reqSuitePath req) = true := by
    unfold isArchReleasePath
    rw [hsegs]
    simp [bne_iff_ne.mpr hsuite, hc2, isBinArch_of_mem arch harch, hcomp]
  simp only [handleFetch]
  rw [if_neg h0, if_neg (by simp [h1]), if_neg (by simp [hsr]), if_pos har]
  unfold archReleaseBody
  rw [hsegs]
  have harch' : arch = "all" ∨ arch = "amd64" ∨ arch = "arm64" ∨ arch = "armhf" ∨
      arch = "i386" ∨ arch = "riscv64" := by simpa [ARCHS] using harch
  rcases harch' with rfl | rfl | rfl | rfl | rfl | rfl <;> rfl

theorem archRelease_synthesized_no_fetch_witness :
    handleFetch (fun _ => none) (fun _ => none) (fun _ => none)
      ⟨"https:", "/dists/trixie/main/binary-amd64/Release", ""⟩ =
      (.ok "Archive: trixie\nComponent: main\nArchitecture: amd64\n"
        "text/plain; charset=utf-8" (some "hit-generated"), []) := by
  have h := archRelease_synthesized_no_fetch (fun _ => none) (fun _ => none)
    (fun _ => none) ⟨"https:", "/dists/trixie/main/binary-amd64/Release", ""⟩
    "trixie" "main" "amd64" (by decide) (by decide) (by decide) (by decide)
  exact h.trans (by decide)

theorem strEndsWith_append (x y : String) : strEndsWith (x ++ y) y = true := by
  unfold strEndsWith
  rw [String.data_append, List.reverse_append, List.isPrefixOf_iff_prefix]
  exact List.prefix_append _ _

theorem strDropRight_append (x y : String) :
    strDropRight (x ++ y) y.data.length = x := by
  unfold strDropRight
  rw [String.data_append, List.length_append, Nat.add_sub_cancel, List.take_left]

theorem replaceTrailingRelease_append (x : String) :
    replaceTrailingRelease (x ++ "/Release") = x ++ "/InRelease" := by
  unfold replaceTrailingRelease
  rw [if_pos (strEndsWith_append x "/Release"),
    show (8 : Nat) = ("/Release" : String).data.length from rfl,
    strDropRight_append]

theorem suitePath_eq_of_segs3 (req : Request) (suite : String)
    (hsegs : splitSegs (reqSuitePath req) = ["dists", suite, "Release"]) :
    reqSuitePath req = "dists/" ++ suite ++ "/Release" := by
  have h := joinSegs_splitSegs (reqSuitePath req)
  rw [hsegs] at h
  rw [← h]
  apply String.ext
  have e1 : ("dists/" : String).data = ("dists" : String).data ++ ("/" : String).data := rfl
  have e2 : ("/Release" : String).data = ("/" : String).data ++ ("Release" : String).data := rfl
  simp [joinSegs, joinWith, String.data_append, e1, e2]

/-- C3: a request whose normalized path is `dists/<suite>/Release` fetches
the suite's InRelease object (miss gives 404) and serves its body run
through the wrapper strip; and whenever the fetched text has an `Origin:`
line, that strip agrees with the spec's description `releaseBodySpec`
(lines from the first `Origin:` inclusive to the first signature-marker
line exclusive — end of text if absent — trailing-trimmed plus one
newline). -/
theorem suiteRelease_served_as_stripped_inRelease (st : Storage)
    (g : String → Option String) (j : String → Option (List (String × String)))
    (req : Request) (suite : String)
    (hsegs : splitSegs (reqSuitePath req) = ["dists", suite, "Release"])
    (hsuite : suite ≠ "") :
    ((handleFetch st g j req).2 = [reqDistro req ++ "/dists/" ++ suite ++ "/InRelease"])
  ∧ (st (reqDistro req ++ "/dists/" ++ suite ++ "/InRelease") = none →
       (handleFetch st g j req).1 = .notFound)
  ∧ (∀ obj, st (reqDistro req ++ "/dists/" ++ suite ++ "/InRelease") = some obj →
       (handleFetch st g j req).1 =
         .ok (inReleaseToRelease obj.body) "text/plain; charset=utf-8"
           (some "hit-derived"))
  ∧ (∀ text, (∃ l ∈ splitSegsNl text, strStartsWith l "Origin:" = true) →
       inReleaseToRelease text = releaseBodySpec text) := by
  have h0 := raw_ne_empty_of_segs req _ hsegs (by simp)
  have h1 := keyring_false_of_segs req _ hsegs (by simp)
  have hsr : isSuiteReleasePath (reqSuitePath req) = true := by
    unfold isSuiteReleasePath
    rw [hsegs]
    simp [bne_iff_ne.mpr hsuite]
  have hkey : replaceTrailingRelease (reqR2Key req) =
      reqDistro req ++ "/dists/" ++ suite ++ "/InRelease" := by
    unfold reqR2Key
    rw [suitePath_eq_of_segs3 req suite hsegs]
    have hx : reqDistro req ++ "/" ++ ("dists/" ++ suite ++ "/Release") =
        (reqDistro req ++ "/dists/" ++ suite) ++ "/Release" := by
      apply String.ext
      have e1 : ("/dists/" : String).data =
          ("/" : String).data ++ ("dists/" : String).data := rfl
      have e2 : ("/Release" : String).data =
          ("/" : String).data ++ ("Release" : String).data := rfl
      have e3 : ("dists/" : String).data =
          ("dists" : String).data ++ ("/" : String).data := rfl
      simp [String.data_append, e1, e2, e3]
    rw [hx, replaceTrailingRelease_append]
  simp only [handleFetch]
  rw [if_neg h0, if_neg (by simp [h1]), if_pos hsr, hkey]
  refine ⟨?_, ?_, ?_, ?_⟩
  · cases hs : st (reqDistro req ++ "/dists/" ++ suite ++ "/InRelease") <;> rfl
  · intro hnone
    rw [hnone]
  · intro obj hobj
    rw [hobj]
  · intro text hex
    obtain ⟨l, hl, hsw⟩ := hex
    rcases hidx : (splitSegsNl text).findIdx? (fun l => strStartsWith l "Origin:")
      with _ | sidx
    · rw [List.findIdx?_eq_none_iff] at hidx
      exact absurd (hidx l hl) (by simp [hsw])
    · simp only [inReleaseToRelease, releaseBodySpec, hidx, Option.getD_some]
      rcases hstop : (splitSegsNl text).findIdx?
          (fun l => strStartsWith l "-----BEGIN PGP SIGNATURE-----") with _ | e
      · simp only [hstop, Option.getD_none, List.take_length]
      · simp only [hstop, Option.getD_some, List.drop_take]

theorem suiteRelease_witness :
    ((handleFetch
        (fun k => if k = "debian/dists/trixie/InRelease" then
          some ⟨"-----BEGIN PGP SIGNED MESSAGE-----\nHash: SHA512\n\nOrigin: debthin\nSuite: trixie\n\n-----BEGIN PGP SIGNATURE-----\nabc\n-----END PGP SIGNATURE-----\n", none⟩ else none)
        (fun _ => none) (fun _ => none) ⟨"https:", "/dists/stable/Release", ""⟩).1 =
      Response.ok "Origin: debthin\nSuite: trixie\n" "text/plain; charset=utf-8"
        (some "hit-derived"))
  ∧ (inReleaseToRelease
        "-----BEGIN PGP SIGNED MESSAGE-----\nHash: SHA512\n\nOrigin: debthin\nSuite: trixie\n\n-----BEGIN PGP SIGNATURE-----\nabc\n-----END PGP SIGNATURE-----\n" =
      releaseBodySpec
        "-----BEGIN PGP SIGNED MESSAGE-----\nHash: SHA512\n\nOrigin: debthin\nSuite: trixie\n\n-----BEGIN PGP SIGNATURE-----\nabc\n-----END PGP SIGNATURE-----\n") := by
  have h := suiteRelease_served_as_stripped_inRelease
    (fun k => if k = "debian/dists/trixie/InRelease" then
      some ⟨"-----BEGIN PGP SIGNED MESSAGE-----\nHash: SHA512\n\nOrigin: debthin\nSuite: trixie\n\n-----BEGIN PGP SIGNATURE-----\nabc\n-----END PGP SIGNATURE-----\n", none⟩ else none)
    (fun _ => none) (fun _ => none) ⟨"https:", "/dists/stable/Release", ""⟩
    "trixie" (by decide) (by decide)
  refine ⟨?_, ?_⟩
  · have h3 := h.2.2.1 ⟨"-----BEGIN PGP SIGNED MESSAGE-----\nHash: SHA512\n\nOrigin: debthin\nSuite: trixie\n\n-----BEGIN PGP SIGNATURE-----\nabc\n-----END PGP SIGNATURE-----\n", none⟩ (by decide)
    exact h3.trans (by decide)
  · exact h.2.2.2 _ ⟨"Origin: debthin", by decide, by decide⟩

theorem plainPackages_shape (d p : String) (h : isPlainPackagesPath d p = true) :
    ∃ su co ba, splitSegs p = ["dists", su, co, ba, "Packages"] ∧
      (su != "") = true ∧ (components d).contains co = true ∧ isBinArch ba = true := by
  unfold isPlainPackagesPath at h
  split at h
  · next a su co ba f heq =>
    simp only [Bool.and_eq_true, beq_iff_eq] at h
    obtain ⟨⟨⟨⟨ha, hf⟩, hsu⟩, hco⟩, hba⟩ := h
    subst ha; subst hf
    exact ⟨su, co, ba, heq, by simpa using hsu, by simpa using hco, hba⟩
  · cases h

/-- C2: a path classified as plain `Packages` (rule 5) — which also
syntactically matches the later verbatim-stored pattern whose compression
suffix is optional (rule 7) — is always handled by decompressing the stored
`.gz` object: the only key fetched is `<r2Key>.gz` and the response is the
decompression outcome (404 on miss), never a verbatim serve. -/
theorem plainPackages_decompressed_not_verbatim (st : Storage)
    (g : String → Option String) (j : String → Option (List (String × String)))
    (req : Request)
    (h : isPlainPackagesPath (reqDistro req) (reqSuitePath req) = true) :
    isPackagesAnyPath (reqDistro req) (reqSuitePath req) = true
  ∧ (handleFetch st g j req).2 = [reqR2Key req ++ ".gz"]
  ∧ (handleFetch st g j req).1 =
      (serveDecompressed g st (reqR2Key req ++ ".gz")).getD .notFound := by
  obtain ⟨su, co, ba, hsegs, hsu, hco, hba⟩ := plainPackages_shape _ _ h
  have h0 := raw_ne_empty_of_segs req _ hsegs (by simp)
  have h1 := keyring_false_of_segs req _ hsegs (by simp)
  have hsr := isSuiteReleasePath_false_of_len (reqSuitePath req) (by rw [hsegs]; simp)
  have har : isArchReleasePath (reqDistro req) (reqSuitePath req) = false := by
    unfold isArchReleasePath
    rw [hsegs]
    simp
  refine ⟨?_, ?_, ?_⟩
  · unfold isPackagesAnyPath isPackagesFileName
    rw [hsegs]
    simp [hsu, hco, hba, List.mem_of_elem_eq_true hco]
  · simp only [handleFetch]
    rw [if_neg h0, if_neg (by simp [h1]), if_neg (by simp [hsr]), if_neg (by simp [har]),
      if_pos h]
    cases hs : serveDecompressed g st (reqR2Key req ++ ".gz") <;> simp [hs]
  · simp only [handleFetch]
    rw [if_neg h0, if_neg (by simp [h1]), if_neg (by simp [hsr]), if_neg (by simp [har]),
      if_pos h]
    cases hs : serveDecompressed g st (reqR2Key req ++ ".gz") <;> simp [hs]

theorem plainPackages_witness :
    ((handleFetch
        (fun k => if k = "debian/dists/trixie/main/binary-amd64/Packages.gz" then
          some ⟨"GZDATA", none⟩ else none)
        (fun b => if b = "GZDATA" then some "Package: apt\n" else none)
        (fun _ => none)
        ⟨"https:", "/debian/dists/trixie/main/binary-amd64/Packages", ""⟩).1 =
      Response.ok "Package: apt\n" "text/plain; charset=utf-8" (some "hit-decomp"))
  ∧ ((handleFetch
        (fun k => if k = "debian/dists/trixie/main/binary-amd64/Packages.gz" then
          some ⟨"GZDATA", none⟩ else none)
        (fun b => if b = "GZDATA" then some "Package: apt\n" else none)
        (fun _ => none)
        ⟨"https:", "/debian/dists/trixie/main/binary-amd64/Packages", ""⟩).2 =
      ["debian/dists/trixie/main/binary-amd64/Packages.gz"]) := by
  have h := plainPackages_decompressed_not_verbatim
    (fun k => if k = "debian/dists/trixie/main/binary-amd64/Packages.gz" then
      some ⟨"GZDATA", none⟩ else none)
    (fun b => if b = "GZDATA" then some "Package: apt\n" else none)
    (fun _ => none)
    ⟨"https:", "/debian/dists/trixie/main/binary-amd64/Packages", ""⟩ (by decide)
  exact ⟨h.2.2.trans (by decide), h.2.1.trans (by decide)⟩

theorem byHashMatch_shape (p : String) (pr : String × String)
    (h : byHashMatch p = some pr) :
    ∃ s rest, splitSegs p = "dists" :: s :: rest ∧ pr.1 = "dists/" ++ s ∧
      4 ≤ rest.length := by
  unfold byHashMatch at h
  split at h
  · next d sseg rest heq =>
    split at h
    · split at h
      · next h1 sha bh midrev heq2 =>
        split at h
        · next hcond =>
          obtain rfl := Option.some.inj h
          refine ⟨sseg, rest, ?_, rfl, ?_⟩
          · next hd _ =>
            simp only [Bool.and_eq_true, beq_iff_eq] at hd
            rw [heq, hd.1]
          · have hrevlen : rest.reverse.length = midrev.length + 3 := by
              rw [heq2]; simp
            simp only [Bool.and_eq_true, Bool.not_eq_true'] at hcond
            have hm : ¬ midrev.isEmpty = true := by
              simp [hcond.1.1.1.1]
            have hmlen : 1 ≤ midrev.length := by
              cases midrev with
              | nil => simp at hm
              | cons _ _ => simp
            rw [List.length_reverse] at hrevlen
            omega
        · cases h
      · cases h
    · cases h
  · cases h

/-- C5: for a by-hash request, the worker first fetches the suite's
`by-hash-index` object (miss gives 404); a digest absent from the parsed
index also gives 404 even though the index was found; a digest mapped to a
non-empty relative path triggers a verbatim fetch of
`<distro>/<suite-prefix>/<relativePath>` whose outcome (200 or a secondary
404) is the response. -/
theorem byHash_lookup_resolution (st : Storage) (g : String → Option String)
    (j : String → Option (List (String × String))) (req : Request)
    (pr : String × String)
    (h : byHashMatch (reqSuitePath req) = some pr) :
    (∃ s, pr.1 = "dists/" ++ s)
  ∧ (st (reqDistro req ++ "/" ++ pr.1 ++ "/by-hash-index") = none →
       handleFetch st g j req =
         (.notFound, [reqDistro req ++ "/" ++ pr.1 ++ "/by-hash-index"]))
  ∧ (∀ obj idx, st (reqDistro req ++ "/" ++ pr.1 ++ "/by-hash-index") = some obj →
       j obj.body = some idx → idx.lookup pr.2 = none →
       handleFetch st g j req =
         (.notFound, [reqDistro req ++ "/" ++ pr.1 ++ "/by-hash-index"]))
  ∧ (∀ obj idx rel, st (reqDistro req ++ "/" ++ pr.1 ++ "/by-hash-index") = some obj →
       j obj.body = some idx → idx.lookup pr.2 = some rel → ¬ rel = "" →
       handleFetch st g j req =
         ((serveR2 st (reqDistro req ++ "/" ++ pr.1 ++ "/" ++ rel)).getD .notFound,
          [reqDistro req ++ "/" ++ pr.1 ++ "/by-hash-index",
           reqDistro req ++ "/" ++ pr.1 ++ "/" ++ rel])) := by
  obtain ⟨sseg, rest, hsegs, hpr1, hlen⟩ := byHashMatch_shape _ _ h
  have h0 := raw_ne_empty_of_segs req _ hsegs (by simp)
  have h1 := keyring_false_of_segs req _ hsegs (by simp)
  have hsr := isSuiteReleasePath_false_of_len (reqSuitePath req)
    (by rw [hsegs]; simp; omega)
  have har := isArchReleasePath_false_of_len (reqDistro req) (reqSuitePath req)
    (by rw [hsegs]; simp; omega)
  have hpp := isPlainPackagesPath_false_of_len (reqDistro req) (reqSuitePath req)
    (by rw [hsegs]; simp; omega)
  refine ⟨⟨sseg, hpr1⟩, ?_, ?_, ?_⟩
  · intro hnone
    simp only [handleFetch]
    rw [if_neg h0, if_neg (by simp [h1]), if_neg (by simp [hsr]), if_neg (by simp [har]),
      if_neg (by simp [hpp])]
    simp only [h, hnone]
  · intro obj idx hobj hj hlook
    simp only [handleFetch]
    rw [if_neg h0, if_neg (by simp [h1]), if_neg (by simp [hsr]), if_neg (by simp [har]),
      if_neg (by simp [hpp])]
    simp only [h, hobj, hj, hlook]
  · intro obj idx rel hobj hj hlook hrel
    simp only [handleFetch]
    rw [if_neg h0, if_neg (by simp [h1]), if_neg (by simp [hsr]), if_neg (by simp [har]),
      if_neg (by simp [hpp])]
    simp only [h, hobj, hj, hlook]
    rw [if_neg hrel]
    cases hs : serveR2 st (reqDistro req ++ "/" ++ pr.1 ++ "/" ++ rel) <;>
      simp [hs]

theorem byHash_lookup_resolution_witness :
    handleFetch
      (fun k => if k = "debian/dists/trixie/by-hash-index" then
        some ⟨"IDXBODY", none⟩ else none)
      (fun _ => none)
      (fun b => if b = "IDXBODY" then
        some [("bbbbbbbbbbbbbbbbbbbbbbbbbbbbbbbbbbbbbbbbbbbbbbbbbbbbbbbbbbbbbbbb", "main/binary-amd64/Packages.gz")] else none)
      ⟨"https:", "/dists/trixie/main/binary-amd64/by-hash/SHA256/aaaaaaaaaaaaaaaaaaaaaaaaaaaaaaaaaaaaaaaaaaaaaaaaaaaaaaaaaaaaaaaa", ""⟩ =
      (Response.notFound, ["debian/dists/trixie/by-hash-index"]) := by
  have h := byHash_lookup_resolution
    (fun k => if k = "debian/dists/trixie/by-hash-index" then
      some ⟨"IDXBODY", none⟩ else none)
    (fun _ => none)
    (fun b => if b = "IDXBODY" then
      some [("bbbbbbbbbbbbbbbbbbbbbbbbbbbbbbbbbbbbbbbbbbbbbbbbbbbbbbbbbbbbbbbb", "main/binary-amd64/Packages.gz")] else none)
    ⟨"https:", "/dists/trixie/main/binary-amd64/by-hash/SHA256/aaaaaaaaaaaaaaaaaaaaaaaaaaaaaaaaaaaaaaaaaaaaaaaaaaaaaaaaaaaaaaaa", ""⟩
    ("dists/trixie", "aaaaaaaaaaaaaaaaaaaaaaaaaaaaaaaaaaaaaaaaaaaaaaaaaaaaaaaaaaaaaaaa") (by decide)
  have h3 := h.2.2.1 ⟨"IDXBODY", none⟩ [("bbbbbbbbbbbbbbbbbbbbbbbbbbbbbbbbbbbbbbbbbbbbbbbbbbbbbbbbbbbbbbbb", "main/binary-amd64/Packages.gz")]
    (by decide) (by decide) (by decide)
  exact h3.trans (by decide)

/-- C1: the worker redirects exactly when the normalized path is non-empty,
not a keyring asset, and matches no known-dist rule; and on any known-dist
path with all storage fetches missing, the response is the 404 — the
synthesized per-arch Release performs no fetch and so never misses — and in
no case a redirect. -/
theorem knownDist_notFound_redirect_iff (st : Storage) (g : String → Option String)
    (j : String → Option (List (String × String))) (req : Request) :
    (isRedirect (handleFetch st g j req).1 =
      (!(reqRaw req == "") && !isKeyringPath (reqRaw req) &&
       !knownDistPath (reqDistro req) (reqSuitePath req)))
  ∧ (knownDistPath (reqDistro req) (reqSuitePath req) = true →
     isArchReleasePath (reqDistro req) (reqSuitePath req) = false →
     (handleFetch (fun _ => none) g j req).1 = .notFound) := by
  constructor
  · by_cases h0 : reqRaw req = ""
    · simp only [handleFetch, if_pos h0]
      cases hs : st "index.html" <;> simp [hs, isRedirect, h0]
    · by_cases h1 : isKeyringPath (reqRaw req) = true
      · simp only [handleFetch, if_neg h0, if_pos h1]
        cases hs : serveR2 st (reqRaw req) with
        | none => simp [hs, isRedirect, h1]
        | some r => simp [hs, serveR2_not_redirect st _ r hs, h1]
      · have h1' : isKeyringPath (reqRaw req) = false := by simpa using h1
        by_cases h2 : isSuiteReleasePath (reqSuitePath req) = true
        · simp only [handleFetch, if_neg h0, if_neg h1, if_pos h2]
          cases hs : st (replaceTrailingRelease (reqR2Key req)) <;>
            simp [hs, isRedirect, knownDistPath, h2]
        · have h2' : isSuiteReleasePath (reqSuitePath req) = false := by simpa using h2
          by_cases h3 : isArchReleasePath (reqDistro req) (reqSuitePath req) = true
          · simp only [handleFetch, if_neg h0, if_neg h1, if_neg h2, if_pos h3]
            simp [isRedirect, knownDistPath, h3]
          · have h3' : isArchReleasePath (reqDistro req) (reqSuitePath req) = false := by
              simpa using h3
            by_cases h4 : isPlainPackagesPath (reqDistro req) (reqSuitePath req) = true
            · simp only [handleFetch, if_neg h0, if_neg h1, if_neg h2, if_neg h3,
                if_pos h4]
              cases hs : serveDecompressed g st (reqR2Key req ++ ".gz") with
              | none => simp [hs, isRedirect, knownDistPath, h4]
              | some r =>
                simp [hs, serveDecompressed_not_redirect g st _ r hs, knownDistPath, h4]
            · have h4' : isPlainPackagesPath (reqDistro req) (reqSuitePath req) = false := by
                simpa using h4
              cases hbh : byHashMatch (reqSuitePath req) with
              | some pr =>
                simp only [handleFetch, if_neg h0, if_neg h1, if_neg h2, if_neg h3,
                  if_neg h4, hbh]
                cases hi : st (reqDistro req ++ "/" ++ pr.1 ++ "/by-hash-index") with
                | none => simp [hi, isRedirect, knownDistPath, hbh]
                | some obj =>
                  cases hj : j obj.body with
                  | none => simp [hi, hj, isRedirect, knownDistPath, hbh]
                  | some idx =>
                    cases hl : idx.lookup pr.2 with
                    | none => simp [hi, hj, hl, isRedirect, knownDistPath, hbh]
                    | some rel =>
                      by_cases hr : rel = ""
                      · simp [hi, hj, hl, hr, isRedirect, knownDistPath, hbh]
                      · cases hs2 : serveR2 st (reqDistro req ++ "/" ++ pr.1 ++ "/" ++ rel) with
                        | none => simp [hi, hj, hl, hr, hs2, isRedirect, knownDistPath, hbh]
                        | some r =>
                          simp [hi, hj, hl, hr, hs2,
                            serveR2_not_redirect st _ r hs2, knownDistPath, hbh]
              | none =>
                by_cases h5 : matchesDistPattern (reqDistro req) (reqSuitePath req) = true
                · simp only [handleFetch, if_neg h0, if_neg h1, if_neg h2, if_neg h3,
                    if_neg h4, hbh, if_pos h5]
                  cases hs : serveR2 st (reqR2Key req) with
                  | none => simp [hs, isRedirect, knownDistPath, h5]
                  | some r => simp [hs, serveR2_not_redirect st _ r hs, knownDistPath, h5]
                · have h5' : matchesDistPattern (reqDistro req) (reqSuitePath req) = false := by
                    simpa using h5
                  simp only [handleFetch, if_neg h0, if_neg h1, if_neg h2, if_neg h3,
                    if_neg h4, hbh, if_neg h5]
                  simp [isRedirect, knownDistPath, h0, h1', h2', h3', h4', hbh, h5']
  · intro hk hna
    have h0 : ¬ reqRaw req = "" := by
      intro h0
      rw [reqSuitePath_of_raw_empty req h0, reqDistro_of_raw_empty req h0] at hk
      exact absurd hk (by decide)
    have h1' : isKeyringPath (reqRaw req) = false := by
      by_cases h1 : isKeyringPath (reqRaw req) = true
      · exfalso
        have hkk := reqSuitePath_of_keyring req h1
        rw [knownDistPath_false_of_one_seg (reqDistro req) _ _ hkk] at hk
        cases hk
      · simpa using h1
    simp only [handleFetch, if_neg h0, if_neg (by simp [h1'] :
      ¬ isKeyringPath (reqRaw req) = true)]
    by_cases h2 : isSuiteReleasePath (reqSuitePath req) = true
    · rw [if_pos h2]
    · rw [if_neg h2, if_neg (by simp [hna] :
        ¬ isArchReleasePath (reqDistro req) (reqSuitePath req) = true)]
      by_cases h4 : isPlainPackagesPath (reqDistro req) (reqSuitePath req) = true
      · rw [if_pos h4]
        rfl
      · rw [if_neg h4]
        cases hbh : byHashMatch (reqSuitePath req) with
        | some pr => simp only [hbh]
        | none =>
          simp only [hbh]
          by_cases h5 : matchesDistPattern (reqDistro req) (reqSuitePath req) = true
          · rw [if_pos h5]
            rfl
          · exfalso
            have h2' : isSuiteReleasePath (reqSuitePath req) = false := by simpa using h2
            have h4' : isPlainPackagesPath (reqDistro req) (reqSuitePath req) = false := by
              simpa using h4
            have h5' : matchesDistPattern (reqDistro req) (reqSuitePath req) = false := by
              simpa using h5
            rw [knownDistPath, h2', hna, h4', hbh, h5'] at hk
            exact absurd hk (by decide)

theorem knownDist_notFound_redirect_iff_witness :
    ((handleFetch (fun _ => none) (fun _ => none) (fun _ => none)
        ⟨"https:", "/dists/trixie/InRelease", ""⟩).1 = Response.notFound)
  ∧ (isRedirect (handleFetch (fun _ => none) (fun _ => none) (fun _ => none)
        ⟨"https:", "/dists/trixie/InRelease", ""⟩).1 = false) := by
  have h := knownDist_notFound_redirect_iff (fun _ => none) (fun _ => none)
    (fun _ => none) ⟨"https:", "/dists/trixie/InRelease", ""⟩
  exact ⟨h.2 (by decide) (by decide), h.1.trans (by decide)⟩

end Debthin
